import Mathlib

/-!
Shallow embedding of `src/JarvisAlive/departments/sales/sales_department.py`
(the `SalesDepartment` class): data model (Lead, Prospect, meetings, metrics),
the scoring engine, the nurture / scheduling / reporting stage executors and
the workflow orchestration, together with proofs of the behavioural claims.

Python `datetime` values are modelled as `Int` timestamps (seconds);
Python `float` arithmetic is modelled exactly over `ℚ`; Python `dict`s are
modelled as insertion-ordered association lists with the replace-on-assign
update `dictInsert` that mirrors `d[k] = v`.
-/

/-- Python `needle in haystack` on strings (substring containment). -/
def strContains (haystack needle : String) : Bool :=
  decide (needle.data <:+: haystack.data)

/-- Python `d.get(k)` / `d[k]`: value at the first (unique, for a real dict)
occurrence of key `k`. -/
def dictGet {α : Type} (d : List (String × α)) (k : String) : Option α :=
  match d with
  | [] => none
  | (k', v) :: rest => if k' = k then some v else dictGet rest k

/-- Python `d[k] = v`: replace the value at an existing key, else append. -/
def dictInsert {α : Type} (d : List (String × α)) (k : String) (v : α) :
    List (String × α) :=
  match d with
  | [] => [(k, v)]
  | (k', v') :: rest =>
      if k' = k then (k, v) :: rest else (k', v') :: dictInsert rest k v

/-- In-place field update of the entry stored at key `k`
(Python `d[k].attr = ...`). -/
def dictModify {α : Type} (d : List (String × α)) (k : String) (f : α → α) :
    List (String × α) :=
  match d with
  | [] => []
  | (k', v) :: rest =>
      if k' = k then (k', f v) :: rest else (k', v) :: dictModify rest k f

/-- Python `k in d`. -/
def dictContains {α : Type} (d : List (String × α)) (k : String) : Bool :=
  (dictGet d k).isSome

/-- Number of entries stored under key `k` (1 at most for a real dict). -/
def countKey {α : Type} (d : List (String × α)) (k : String) : Nat :=
  (d.filter (fun kv => kv.1 = k)).length

/-- `Lead` dataclass (sales_department.py lines 53-71). -/
structure Lead where
  id : String
  name : String
  email : String
  company : String
  title : String
  source : String
  score : ℚ
  created_at : Int
  status : String := "new"
  contact_attempts : Nat := 0
  last_contacted : Option Int := none
  notes : List String := []
deriving DecidableEq

/-- `Prospect` dataclass (lines 74-84). -/
structure Prospect where
  lead : Lead
  qualification_score : ℚ
  pain_points : List String
  budget_range : Option String
  timeline : Option String
  decision_maker : Bool
  next_action : String
  meeting_scheduled : Bool := false
deriving DecidableEq

/-- A scheduled-meeting record as built in `schedule_meetings` (lines 626-634). -/
structure Meeting where
  id : String
  prospect_id : Option String
  meeting_type : String
  scheduled_time : Int
  duration : Nat := 30
  status : String := "confirmed"
  created_at : Int
deriving DecidableEq

/-- `DepartmentMetrics` pydantic model (lines 37-50). -/
structure DepartmentMetrics where
  leads_generated : Nat := 0
  leads_qualified : Nat := 0
  messages_composed : Nat := 0
  emails_sent : Nat := 0
  responses_received : Nat := 0
  meetings_booked : Nat := 0
  total_workflows_executed : Nat := 0
  average_execution_time : ℚ := 0
  last_execution : Option Int := none
  success_rate : ℚ := 0
  personalization_score : ℚ := 0
  response_rate : ℚ := 0
deriving DecidableEq

/-- Attribute record consumed by `_calculate_lead_score` (missing keys
default to `""` via `lead_data.get(..., "")`-style access). -/
structure LeadData where
  title : String := ""
  company_size : String := ""
  industry : String := ""
deriving DecidableEq

/-- `lead_scoring_criteria["title_keywords"]` (line 171). -/
def title_keywords : List String :=
  ["ceo", "cto", "vp", "director", "manager", "head"]

/-- `lead_scoring_criteria["company_size_bonus"]` (line 172); the list order
is the Python dict's insertion order, which is the iteration order. -/
def company_size_bonus : List (String × ℚ) :=
  [("startup", 5), ("enterprise", 10), ("mid-market", 8)]

/-- `lead_scoring_criteria["industry_match"]` (line 173). -/
def industry_match : List String :=
  ["saas", "technology", "software", "fintech"]

/-- `_calculate_lead_score` (lines 1125-1150): base 5.0, +2.0 on the first
matching title keyword (loop with `break`), the bonus of the first matching
company-size token, +3.0 on the first matching industry token, capped at 10. -/
def calculate_lead_score (lead_data : LeadData) : ℚ :=
  let score : ℚ := 5
  let title := lead_data.title.toLower
  let score :=
    if title_keywords.any (fun keyword => strContains title keyword) then
      score + 2
    else score
  let company_size := lead_data.company_size.toLower
  let score :=
    match company_size_bonus.find? (fun sb => strContains company_size sb.1) with
    | some sb => score + sb.2
    | none => score
  let industry := lead_data.industry.toLower
  let score :=
    if industry_match.any (fun mi => strContains industry mi) then score + 3
    else score
  min score 10

/-- Reference computation transcribed from the claim's own words: base 5.0,
+2.0 for a title keyword, size bonus 5/8/10 for the first matching
startup / mid-market / enterprise substring in that listed order, +3.0 for an
industry match, clamped to 10.0. -/
def leadScoreSpec (lead_data : LeadData) : ℚ :=
  let t : ℚ :=
    if title_keywords.any (fun keyword => strContains lead_data.title.toLower keyword) then 2 else 0
  let s : ℚ :=
    if strContains lead_data.company_size.toLower "startup" then 5
    else if strContains lead_data.company_size.toLower "mid-market" then 8
    else if strContains lead_data.company_size.toLower "enterprise" then 10
    else 0
  let i : ℚ :=
    if industry_match.any (fun mi => strContains lead_data.industry.toLower mi) then 3 else 0
  min (5 + t + s + i) 10

/-- The aggregate result dict built by `nurture_prospects` (lines 542-548). -/
structure NurtureResults where
  leads_contacted : Nat := 0
  emails_sent : Nat := 0
  responses_received : Nat := 0
  prospects_qualified : Nat := 0
  errors : List String := []
deriving DecidableEq

/-- `_qualify_lead` (lines 1166-1185): a Prospect for any lead with
score ≥ 7, `decision_maker` derived as score ≥ 8. -/
def qualify_lead (lead : Lead) : Option Prospect :=
  if 7 ≤ lead.score then
    some { lead := lead
           qualification_score := lead.score
           pain_points := ["automation", "efficiency"]
           budget_range := some "10k-50k"
           timeline := some "Q1"
           decision_maker := decide (8 ≤ lead.score)
           next_action := "schedule_meeting" }
  else none

/-- `_send_outreach_email` (lines 1152-1164): appends a note on the lead and
reports success (the success path is the only reachable one in the source). -/
def send_outreach_email (now : Int) (lead : Lead) (template_type : String) :
    Lead × Bool :=
  ({ lead with
      notes := lead.notes ++
        ["Sent " ++ template_type ++ " email at " ++ toString now] },
   true)

/-- The outreach part of the per-lead nurture body (lines 553-568): initial
outreach for a `new` lead, follow-up for a `contacted` lead with fewer than 3
attempts; returns the mutated lead and the number of emails sent (0 or 1). -/
def contactStep (now : Int) (lead : Lead) : Lead × Nat :=
  if lead.status = "new" then
    let sent := send_outreach_email now lead "cold_outreach"
    if sent.2 then
      ({ sent.1 with
          contact_attempts := sent.1.contact_attempts + 1
          last_contacted := some now
          status := "contacted" }, 1)
    else (sent.1, 0)
  else if lead.status = "contacted" ∧ lead.contact_attempts < 3 then
    let sent := send_outreach_email now lead "follow_up"
    if sent.2 then
      ({ sent.1 with
          contact_attempts := sent.1.contact_attempts + 1
          last_contacted := some now }, 1)
    else (sent.1, 0)
  else (lead, 0)

/-- One iteration of the `for lead in leads` loop of `nurture_prospects`
(lines 550-582), over the accumulator (results dict, prospects pipeline,
leads processed so far).  A lead whose id is in `failing` models the per-item
`except` branch (line 581-582): the exception is recorded and the loop moves
on.  On qualification the stored Prospect's embedded lead carries the final
`qualified` status because in the source the Prospect aliases the mutated
`Lead` object. -/
def nurtureOne (failing : List String) (now : Int)
    (acc : NurtureResults × List (String × Prospect) × List Lead)
    (lead : Lead) : NurtureResults × List (String × Prospect) × List Lead :=
  let res := acc.1
  let prospects := acc.2.1
  let processed := acc.2.2
  if lead.id ∈ failing then
    ({ res with
        errors := res.errors ++
          ["Error nurturing lead " ++ lead.id ++ ": injected failure"] },
     prospects, processed ++ [lead])
  else
    let step := contactStep now lead
    let l1 := step.1
    if 7 < l1.score ∧ 2 ≤ l1.contact_attempts then
      match qualify_lead l1 with
      | some p =>
          let l2 := { l1 with status := "qualified" }
          ({ res with
              emails_sent := res.emails_sent + step.2
              prospects_qualified := res.prospects_qualified + 1
              leads_contacted := res.leads_contacted + 1 },
           dictInsert prospects l1.id { p with lead := l2 },
           processed ++ [l2])
      | none =>
          ({ res with
              emails_sent := res.emails_sent + step.2
              leads_contacted := res.leads_contacted + 1 },
           prospects, processed ++ [l1])
    else
      ({ res with
          emails_sent := res.emails_sent + step.2
          leads_contacted := res.leads_contacted + 1 },
       prospects, processed ++ [l1])

/-- `nurture_prospects` (lines 529-588) as a fold of `nurtureOne` over the
batch, starting from the zeroed results dict of lines 542-548; returns the
results dict, the updated prospects pipeline and the mutated leads in order. -/
def nurture_prospects (failing : List String) (now : Int) (leads : List Lead)
    (prospects : List (String × Prospect)) :
    NurtureResults × List (String × Prospect) × List Lead :=
  leads.foldl (nurtureOne failing now) ({}, prospects, [])

/-- The net effect of one non-failing nurture iteration on the lead itself
(the lead's transformation is independent of the prospects pipeline). -/
def nurtureLeadResult (now : Int) (lead : Lead) : Lead :=
  let l1 := (contactStep now lead).1
  if 7 < l1.score ∧ 2 ≤ l1.contact_attempts then
    match qualify_lead l1 with
    | some _ => { l1 with status := "qualified" }
    | none => l1
  else l1

/-- One entry of the `prospects` argument of `schedule_meetings`
(lines 615-619): `prospect_data.get("prospect_id")`,
`prospect_data.get("meeting_type", "discovery_call")`,
`prospect_data.get("preferred_times", [])`. -/
structure ProspectRequest where
  prospect_id : Option String := none
  meeting_type : String := "discovery_call"
  preferred_times : List String := []
deriving DecidableEq

/-- The aggregate result dict built by `schedule_meetings` (lines 607-613). -/
structure SchedulingResults where
  meetings_requested : Nat := 0
  meetings_confirmed : Nat := 0
  calendar_conflicts : Nat := 0
  scheduled_meetings : List Meeting := []
  errors : List String := []
deriving DecidableEq

/-- `_find_available_slot` (lines 1187-1191): the stub always returns the
slot 3 days (259200 seconds) after the current time. -/
def find_available_slot (now : Int) (meeting_type : String)
    (preferred_times : List String) : Option Int :=
  some (now + 3 * 86400)

/-- One iteration of the `for prospect_data in prospects` loop of
`schedule_meetings` (lines 615-650), over (results, prospects pipeline,
meetings list). -/
def scheduleOne (now : Int)
    (acc : SchedulingResults × List (String × Prospect) × List Meeting)
    (pd : ProspectRequest) :
    SchedulingResults × List (String × Prospect) × List Meeting :=
  let res := acc.1
  let pipeline := acc.2.1
  let meetings := acc.2.2
  match find_available_slot now pd.meeting_type pd.preferred_times with
  | some slot =>
      let meeting : Meeting :=
        { id := "meeting_" ++ toString now
          prospect_id := pd.prospect_id
          meeting_type := pd.meeting_type
          scheduled_time := slot
          created_at := now }
      let res' :=
        { res with
            meetings_confirmed := res.meetings_confirmed + 1
            scheduled_meetings := res.scheduled_meetings ++ [meeting]
            meetings_requested := res.meetings_requested + 1 }
      let pipeline' :=
        match pd.prospect_id with
        | some pid =>
            if dictContains pipeline pid then
              dictModify pipeline pid (fun p =>
                { p with meeting_scheduled := true
                         next_action := "attend_meeting" })
            else pipeline
        | none => pipeline
      (res', pipeline', meetings ++ [meeting])
  | none =>
      ({ res with
          calendar_conflicts := res.calendar_conflicts + 1
          meetings_requested := res.meetings_requested + 1 },
       pipeline, meetings)

/-- `schedule_meetings` (lines 594-656) as a fold of `scheduleOne` over the
batch, starting from the zeroed results dict of lines 607-613. -/
def schedule_meetings (now : Int) (prospects : List ProspectRequest)
    (pipeline : List (String × Prospect)) (meetings : List Meeting) :
    SchedulingResults × List (String × Prospect) × List Meeting :=
  prospects.foldl (scheduleOne now) ({}, pipeline, meetings)

/-- The orchestrator's pipeline state: the `self.metrics`, `leads_database`,
`prospects_pipeline` and `meetings_scheduled` attributes (lines 124-149). -/
structure SalesState where
  metrics : DepartmentMetrics := {}
  leads_database : List (String × Lead) := []
  prospects_pipeline : List (String × Prospect) := []
  meetings_scheduled : List Meeting := []
deriving DecidableEq

/-- Per-status histogram over all leads (lines 678-681). -/
def statusBreakdown (leads : List Lead) : List (String × Nat) :=
  leads.foldl
    (fun acc lead =>
      dictInsert acc lead.status ((dictGet acc lead.status).getD 0 + 1))
    []

/-- Total pipeline value (lines 692-695): Σ prospect.lead.score × 1000. -/
def totalPipelineValue (prospects : List (String × Prospect)) : ℚ :=
  (prospects.map (fun pp => pp.2.lead.score * 1000)).sum

/-- `_generate_pipeline_recommendations` (lines 1219-1232). -/
def generate_pipeline_recommendations (st : SalesState) : List String :=
  let recommendations :=
    (if st.leads_database.length < 10 then
       ["Increase lead generation activity - current lead count is below optimal"]
     else []) ++
    (if st.prospects_pipeline.length = 0 then
       ["Focus on lead qualification - no qualified prospects in pipeline"]
     else []) ++
    (if st.meetings_scheduled.length = 0 then
       ["Prioritize meeting scheduling with qualified prospects"]
     else [])
  if recommendations = [] then
    ["Pipeline is performing well - continue current activities"]
  else recommendations

/-- The report dict assembled by `report_pipeline_status` (lines 703-729),
restricted to its state-derived fields. -/
structure PipelineReport where
  report_timestamp : Int
  total_leads : Nat
  total_prospects : Nat
  total_meetings : Nat
  pipeline_value : ℚ
  lead_to_prospect_conversion : ℚ
  lead_to_meeting_conversion : ℚ
  lead_breakdown : List (String × Nat)
  recommendations : List String
  pipeline_health : String
  activity_level : String
  conversion_health : String
deriving DecidableEq

/-- `report_pipeline_status` (lines 662-736): pure read over the state; the
two conversion ratios are guarded by `if total_leads > 0` (lines 684-689). -/
def report_pipeline_status (now : Int) (st : SalesState) : PipelineReport :=
  let total_leads := st.leads_database.length
  let total_prospects := st.prospects_pipeline.length
  let total_meetings := st.meetings_scheduled.length
  let lead_to_prospect_rate : ℚ :=
    if 0 < total_leads then (total_prospects : ℚ) / (total_leads : ℚ) else 0
  let lead_to_meeting_rate : ℚ :=
    if 0 < total_leads then (total_meetings : ℚ) / (total_leads : ℚ) else 0
  { report_timestamp := now
    total_leads := total_leads
    total_prospects := total_prospects
    total_meetings := total_meetings
    pipeline_value := totalPipelineValue st.prospects_pipeline
    lead_to_prospect_conversion := lead_to_prospect_rate
    lead_to_meeting_conversion := lead_to_meeting_rate
    lead_breakdown := statusBreakdown (st.leads_database.map (fun kv => kv.2))
    recommendations := generate_pipeline_recommendations st
    pipeline_health := if 0 < total_prospects then "healthy" else "needs_attention"
    activity_level := if 10 < total_leads then "high" else "low"
    conversion_health :=
      if (1 : ℚ) / 10 < lead_to_prospect_rate then "good" else "needs_improvement" }

/-- Envelope of `_execute_lead_nurturing_workflow` (lines 1041-1048). -/
structure NurtureEnvelope where
  success : Bool
  error : Option String := none
  nurturing_results : Option NurtureResults := none
deriving DecidableEq

/-- Envelope of `_execute_meeting_scheduling_workflow` (lines 1065-1072). -/
structure SchedEnvelope where
  success : Bool
  error : Option String := none
  scheduling_results : Option SchedulingResults := none
deriving DecidableEq

/-- Envelope of `_execute_pipeline_reporting_workflow` (lines 1079-1086). -/
structure ReportEnvelope where
  success : Bool
  error : Option String := none
  report : Option PipelineReport := none
deriving DecidableEq

/-- Envelope of the lead-generation stage (lines 797-813), kept abstract in
its payload: the stage body calls the external `LeadScannerAgent`
collaborator, which is outside the embedded module. -/
structure LeadGenEnvelope where
  success : Bool := true
  leads_found : Nat := 0
deriving DecidableEq

/-- `_execute_lead_nurturing_workflow` (lines 1032-1048).
`task_lead_ids = none` models a task dict without the `"lead_ids"` key, for
which `task.get` falls back to every key in the database; an explicitly
provided list (even the empty one) is used as given.  The processed leads are
written back into the database, modelling the in-place mutation of the shared
`Lead` objects.  The executor never touches `self.metrics`. -/
def execute_lead_nurturing_workflow (failing : List String)
    (task_lead_ids : Option (List String)) (now : Int) (st : SalesState) :
    NurtureEnvelope × SalesState :=
  let lead_ids := task_lead_ids.getD (st.leads_database.map (fun kv => kv.1))
  let leads_to_nurture := lead_ids.filterMap (fun lid => dictGet st.leads_database lid)
  let out := nurture_prospects failing now leads_to_nurture st.prospects_pipeline
  let db' := out.2.2.foldl (fun d l => dictInsert d l.id l) st.leads_database
  ({ success := true, nurturing_results := some out.1 },
   { st with leads_database := db', prospects_pipeline := out.2.1 })

/-- `_execute_meeting_scheduling_workflow` (lines 1050-1072): an empty task
list falls back to one discovery-call request per unscheduled prospect. -/
def execute_meeting_scheduling_workflow (task_prospects : List ProspectRequest)
    (now : Int) (st : SalesState) : SchedEnvelope × SalesState :=
  let prospects_data :=
    if task_prospects.isEmpty then
      (st.prospects_pipeline.filter (fun pp => !pp.2.meeting_scheduled)).map
        (fun pp => { prospect_id := some pp.1, meeting_type := "discovery_call" })
    else task_prospects
  let out := schedule_meetings now prospects_data st.prospects_pipeline
    st.meetings_scheduled
  ({ success := true, scheduling_results := some out.1 },
   { st with prospects_pipeline := out.2.1, meetings_scheduled := out.2.2 })

/-- `_execute_pipeline_reporting_workflow` (lines 1074-1086). -/
def execute_pipeline_reporting_workflow (now : Int) (st : SalesState) :
    ReportEnvelope × SalesState :=
  ({ success := true, report := some (report_pipeline_status now st) }, st)

/-- The result dict of `_execute_full_pipeline_workflow` (lines 1091-1120):
each stage's envelope is stored under its own key and the stage name is
appended to `stages_completed`. -/
structure PipelineEnvelope where
  success : Bool
  workflow_type : String
  stages_completed : List String := []
  lead_generation : Option LeadGenEnvelope := none
  lead_nurturing : Option NurtureEnvelope := none
  meeting_scheduling : Option SchedEnvelope := none
  pipeline_report : Option ReportEnvelope := none
deriving DecidableEq

/-- `_execute_full_pipeline_workflow` (lines 1088-1123): the four stages run
unconditionally in the fixed order and each result is recorded; no stage
result is inspected before moving on.  `leadGen` abstracts the
lead-generation stage (its body calls the external scanner collaborator);
`stageError s = some e` models an exception inside stage executor `s`, which
that executor's own `except` clause converts into a
`{"success": False, "error": str(e)}` envelope without touching the state. -/
def execute_full_pipeline_workflow
    (leadGen : SalesState → LeadGenEnvelope × SalesState)
    (stageError : String → Option String) (itemFailures : List String)
    (now : Int) (st : SalesState) : PipelineEnvelope × SalesState :=
  let lg := leadGen st
  let nurture :=
    match stageError "lead_nurturing" with
    | some e => (({ success := false, error := some e } : NurtureEnvelope), lg.2)
    | none => execute_lead_nurturing_workflow itemFailures (some []) now lg.2
  let sched :=
    match stageError "meeting_scheduling" with
    | some e => (({ success := false, error := some e } : SchedEnvelope), nurture.2)
    | none => execute_meeting_scheduling_workflow [] now nurture.2
  let rep :=
    match stageError "pipeline_reporting" with
    | some e => (({ success := false, error := some e } : ReportEnvelope), sched.2)
    | none => execute_pipeline_reporting_workflow now sched.2
  ({ success := true
     workflow_type := "full_pipeline"
     stages_completed :=
       ["lead_generation", "lead_nurturing", "meeting_scheduling",
        "pipeline_reporting"]
     lead_generation := some lg.1
     lead_nurturing := some nurture.1
     meeting_scheduling := some sched.1
     pipeline_report := some rep.1 },
   rep.2)

/-- A completed workflow execution together with the envelope data its
executor feeds back into `self.metrics`.  `duration` is the measured
`execution_time`; the executors for quick wins and full outreach compute it
for the envelope but never fold it into the metrics (lines 884-899 and
994-999), and the nurturing / scheduling / reporting executors
(lines 1032-1086) perform no metrics update at all. -/
inductive Completion where
  | lead_generation (leadsFound : Nat) (duration : ℚ) (now : Int)
  | quick_wins (leadsFound messagesGenerated : Nat) (duration : ℚ) (now : Int)
  | full_outreach (leadsFound messagesGenerated : Nat) (avgPers avgResp : ℚ)
      (duration : ℚ) (now : Int)
  | lead_nurturing
  | meeting_scheduling
  | pipeline_reporting

/-- The metrics mutation each workflow executor performs on its success path:
lead generation per lines 784-795 (including the incremental-mean update of
`average_execution_time`), quick wins per lines 880-888, full outreach per
lines 984-999; the remaining executors leave the metrics untouched. -/
def applyCompletion (m : DepartmentMetrics) : Completion → DepartmentMetrics
  | .lead_generation leadsFound duration now =>
      let m1 :=
        { m with
            leads_generated := m.leads_generated + leadsFound
            total_workflows_executed := m.total_workflows_executed + 1
            last_execution := some now }
      if 0 < m1.total_workflows_executed then
        { m1 with
            average_execution_time :=
              (m1.average_execution_time *
                  ((m1.total_workflows_executed : ℚ) - 1) + duration) /
                (m1.total_workflows_executed : ℚ) }
      else m1
  | .quick_wins leadsFound messagesGenerated _duration now =>
      { m with
          messages_composed := m.messages_composed + messagesGenerated
          leads_qualified := m.leads_qualified + leadsFound
          total_workflows_executed := m.total_workflows_executed + 1
          last_execution := some now }
  | .full_outreach leadsFound messagesGenerated avgPers avgResp _duration now =>
      { m with
          messages_composed := m.messages_composed + messagesGenerated
          leads_qualified := m.leads_qualified + leadsFound
          personalization_score := avgPers
          response_rate := avgResp
          total_workflows_executed := m.total_workflows_executed + 1
          last_execution := some now }
  | .lead_nurturing => m
  | .meeting_scheduling => m
  | .pipeline_reporting => m

/-- `campaign_summary` fields read by `update_metrics` (lines 1321-1325). -/
structure CampaignSummary where
  leads_found : Nat := 0
  messages_generated : Nat := 0
  avg_personalization_score : ℚ := 0
  avg_response_rate : ℚ := 0
deriving DecidableEq

/-- The result-envelope fields read by `update_metrics` via
`results.get(..., 0)` (lines 1309-1330). -/
structure ResultEnvelope where
  success : Bool := false
  leads_found : Nat := 0
  messages_generated : Nat := 0
  campaign_summary : CampaignSummary := {}
deriving DecidableEq

/-- `update_metrics` (lines 1309-1330): increments
`total_workflows_executed`, stamps `last_execution`, applies the
workflow-specific counter updates, and recomputes `success_rate` as the 0/1
success indicator of the single just-completed result divided by the new
total (the generator expression at line 1329 ranges over `[results]`). -/
def update_metrics (workflow_type : String) (results : ResultEnvelope)
    (now : Int) (m : DepartmentMetrics) : DepartmentMetrics :=
  let m1 :=
    { m with
        total_workflows_executed := m.total_workflows_executed + 1
        last_execution := some now }
  let m2 :=
    if workflow_type = "lead_generation" then
      { m1 with leads_generated := m1.leads_generated + results.leads_found }
    else if workflow_type = "quick_wins" then
      { m1 with
          leads_qualified := m1.leads_qualified + results.leads_found
          messages_composed := m1.messages_composed + results.messages_generated }
    else if workflow_type = "full_outreach" then
      { m1 with
          leads_qualified :=
            m1.leads_qualified + results.campaign_summary.leads_found
          messages_composed :=
            m1.messages_composed + results.campaign_summary.messages_generated
          personalization_score := results.campaign_summary.avg_personalization_score
          response_rate := results.campaign_summary.avg_response_rate }
    else m1
  if 0 < m2.total_workflows_executed then
    { m2 with
        success_rate :=
          (if results.success then (1 : ℚ) else 0) /
            (m2.total_workflows_executed : ℚ) }
  else m2

/-- Concrete lead value used by the witnesses below. -/
def exampleLead (i : String) (score : ℚ) (status : String) (attempts : Nat) : Lead :=
  { id := i
    name := "Contact"
    email := "contact@example.com"
    company := "Example Co"
    title := "CTO"
    source := "linkedin_scan"
    score := score
    created_at := 0
    status := status
    contact_attempts := attempts }

/-- A five-lead nurture batch of fresh low-score leads. -/
def exampleBatch : List Lead :=
  [exampleLead "lead_1" 5 "new" 0, exampleLead "lead_2" 5 "new" 0,
   exampleLead "lead_3" 5 "new" 0, exampleLead "lead_4" 5 "new" 0,
   exampleLead "lead_5" 5 "new" 0]

/-- A lead already past the qualification threshold. -/
def exampleQualLead : Lead := exampleLead "lead_q" 8 "contacted" 2

/-- A prospect for `exampleQualLead` that already has a meeting scheduled. -/
def exampleScheduledProspect : Prospect :=
  { lead := exampleQualLead
    qualification_score := 8
    pain_points := ["automation", "efficiency"]
    budget_range := some "10k-50k"
    timeline := some "Q1"
    decision_maker := true
    next_action := "attend_meeting"
    meeting_scheduled := true }

/-- An unscheduled prospect stored under the given id. -/
def exampleUnscheduledProspect (i : String) : Prospect :=
  { lead := exampleLead i 8 "qualified" 2
    qualification_score := 8
    pain_points := ["automation", "efficiency"]
    budget_range := some "10k-50k"
    timeline := some "Q1"
    decision_maker := true
    next_action := "schedule_meeting"
    meeting_scheduled := false }

/-- A pipeline of two unscheduled prospects. -/
def examplePipeline : List (String × Prospect) :=
  [("p1", exampleUnscheduledProspect "p1"), ("p2", exampleUnscheduledProspect "p2")]

/-- Scheduling requests for the two prospects of `examplePipeline`. -/
def exampleRequests : List ProspectRequest :=
  [{ prospect_id := some "p1" }, { prospect_id := some "p2" }]

/-- A state holding one lead and the untouched default metrics. -/
def exampleNurtureState : SalesState :=
  { leads_database := [("lead_q", exampleQualLead)] }

lemma countKey_nil {α : Type} (k : String) : countKey ([] : List (String × α)) k = 0 := rfl

lemma countKey_cons {α : Type} (a : String × α) (d : List (String × α)) (k : String) :
    countKey (a :: d) k = (if a.1 = k then 1 else 0) + countKey d k := by
  by_cases h : a.1 = k <;>
    simp [countKey, List.filter_cons, h, Nat.add_comm]

lemma dictGet_dictInsert_self {α : Type} (d : List (String × α)) (k : String) (v : α) :
    dictGet (dictInsert d k v) k = some v := by
  induction d with
  | nil => simp [dictInsert, dictGet]
  | cons a rest ih =>
      by_cases h : a.1 = k
      · simp [dictInsert, h, dictGet]
      · simpa [dictInsert, h, dictGet] using ih

lemma countKey_dictInsert_of_ne {α : Type} (d : List (String × α)) (k k' : String)
    (v : α) (h : k ≠ k') : countKey (dictInsert d k' v) k = countKey d k := by
  induction d with
  | nil => simp [dictInsert, countKey_cons, countKey_nil, (Ne.symm h)]
  | cons a rest ih =>
      by_cases ha : a.1 = k'
      · simp [dictInsert, ha, countKey_cons, (Ne.symm h)]
      · simp [dictInsert, ha, countKey_cons, ih]

lemma countKey_dictInsert_self {α : Type} (d : List (String × α)) (k : String)
    (v : α) (h : countKey d k ≤ 1) : countKey (dictInsert d k v) k = 1 := by
  induction d with
  | nil => simp [dictInsert, countKey_cons, countKey_nil]
  | cons a rest ih =>
      rw [countKey_cons] at h
      by_cases ha : a.1 = k
      · rw [if_pos ha] at h
        have hrest : countKey rest k = 0 := by omega
        simp [dictInsert, ha, countKey_cons, hrest]
      · rw [if_neg ha] at h
        simp only [Nat.zero_add] at h
        simp [dictInsert, ha, countKey_cons, ih h]

lemma countKey_dictInsert_le_one {α : Type} (d : List (String × α)) (k k' : String)
    (v : α) (h : countKey d k ≤ 1) : countKey (dictInsert d k' v) k ≤ 1 := by
  by_cases hk : k = k'
  · subst hk
    exact Nat.le_of_eq (countKey_dictInsert_self d k v h)
  · rw [countKey_dictInsert_of_ne d k k' v hk]
    exact h

lemma dictGet_dictModify_of_ne {α : Type} (d : List (String × α)) (k k' : String)
    (f : α → α) (h : k ≠ k') : dictGet (dictModify d k' f) k = dictGet d k := by
  induction d with
  | nil => simp [dictModify]
  | cons a rest ih =>
      by_cases ha : a.1 = k'
      · simp [dictModify, ha, dictGet, Ne.symm h]
      · by_cases hk : a.1 = k
        · have hkk : ¬ k = k' := by rw [← hk]; exact ha
          simp [dictModify, ha, dictGet, hk, hkk]
        · simp [dictModify, ha, dictGet, hk, ih]

lemma dictGet_dictModify_self {α : Type} (d : List (String × α)) (k : String)
    (f : α → α) : dictGet (dictModify d k f) k = (dictGet d k).map f := by
  induction d with
  | nil => simp [dictModify, dictGet]
  | cons a rest ih =>
      by_cases ha : a.1 = k
      · simp [dictModify, ha, dictGet]
      · simp [dictModify, ha, dictGet, ih]

lemma dictContains_dictModify {α : Type} (d : List (String × α)) (k k' : String)
    (f : α → α) : dictContains (dictModify d k' f) k = dictContains d k := by
  by_cases hk : k = k'
  · subst hk
    simp [dictContains, dictGet_dictModify_self]
  · simp [dictContains, dictGet_dictModify_of_ne d k k' f hk]

lemma contactStep_id (now : Int) (lead : Lead) :
    ((contactStep now lead).1).id = lead.id := by
  unfold contactStep send_outreach_email
  split_ifs <;> rfl

lemma contactStep_score (now : Int) (lead : Lead) :
    ((contactStep now lead).1).score = lead.score := by
  unfold contactStep send_outreach_email
  split_ifs <;> rfl

lemma contactStep_attempts (now : Int) (lead : Lead) :
    lead.contact_attempts ≤ ((contactStep now lead).1).contact_attempts := by
  unfold contactStep send_outreach_email
  split_ifs <;> simp

lemma countKey_nurtureOne (failing : List String) (now : Int)
    (acc : NurtureResults × List (String × Prospect) × List Lead) (lead : Lead)
    (k : String) (h : countKey acc.2.1 k ≤ 1) :
    countKey (nurtureOne failing now acc lead).2.1 k ≤ 1 := by
  by_cases hf : lead.id ∈ failing
  · simpa [nurtureOne, hf] using h
  · by_cases hc : 7 < ((contactStep now lead).1).score ∧
        2 ≤ ((contactStep now lead).1).contact_attempts
    · rcases hq : qualify_lead (contactStep now lead).1 with _ | p
      · simpa [nurtureOne, hf, hc, hq] using h
      · simpa [nurtureOne, hf, hc, hq] using
          countKey_dictInsert_le_one acc.2.1 k ((contactStep now lead).1).id _ h
    · simpa [nurtureOne, hf, hc] using h

lemma countKey_nurture_fold (failing : List String) (now : Int)
    (leads : List Lead) (k : String) :
    ∀ acc : NurtureResults × List (String × Prospect) × List Lead,
      countKey acc.2.1 k ≤ 1 →
      countKey (leads.foldl (nurtureOne failing now) acc).2.1 k ≤ 1 := by
  induction leads with
  | nil => intro acc h; simpa using h
  | cons lead rest ih =>
      intro acc h
      exact ih _ (countKey_nurtureOne failing now acc lead k h)

lemma nurtureOne_step_spec (failing : List String) (now : Int)
    (acc : NurtureResults × List (String × Prospect) × List Lead) (lead : Lead) :
    (nurtureOne failing now acc lead).1.errors =
      acc.1.errors ++
        (if lead.id ∈ failing then
          ["Error nurturing lead " ++ lead.id ++ ": injected failure"] else []) ∧
    (nurtureOne failing now acc lead).1.leads_contacted =
      acc.1.leads_contacted + (if lead.id ∈ failing then 0 else 1) ∧
    (nurtureOne failing now acc lead).2.2 =
      acc.2.2 ++ [if lead.id ∈ failing then lead else nurtureLeadResult now lead] := by
  by_cases hf : lead.id ∈ failing
  · simp [nurtureOne, hf]
  · by_cases hc : 7 < ((contactStep now lead).1).score ∧
        2 ≤ ((contactStep now lead).1).contact_attempts
    · rcases hq : qualify_lead (contactStep now lead).1 with _ | p
      · simp [nurtureOne, hf, hc, hq, nurtureLeadResult]
      · simp [nurtureOne, hf, hc, hq, nurtureLeadResult]
    · simp [nurtureOne, hf, hc, nurtureLeadResult]

lemma nurture_fold_spec (failing : List String) (now : Int) (leads : List Lead) :
    ∀ acc : NurtureResults × List (String × Prospect) × List Lead,
      (leads.foldl (nurtureOne failing now) acc).1.errors =
        acc.1.errors ++
          (leads.filter (fun l => decide (l.id ∈ failing))).map
            (fun l => "Error nurturing lead " ++ l.id ++ ": injected failure") ∧
      (leads.foldl (nurtureOne failing now) acc).1.leads_contacted =
        acc.1.leads_contacted +
          (leads.filter (fun l => !decide (l.id ∈ failing))).length ∧
      (leads.foldl (nurtureOne failing now) acc).2.2 =
        acc.2.2 ++ leads.map
          (fun l => if l.id ∈ failing then l else nurtureLeadResult now l) := by
  induction leads with
  | nil => intro acc; simp
  | cons lead rest ih =>
      intro acc
      obtain ⟨he, hc, hp⟩ := nurtureOne_step_spec failing now acc lead
      obtain ⟨ihe, ihc, ihp⟩ := ih (nurtureOne failing now acc lead)
      refine ⟨?_, ?_, ?_⟩
      · rw [List.foldl_cons, ihe, he]
        by_cases hf : lead.id ∈ failing <;>
          simp [hf, List.filter_cons]
      · rw [List.foldl_cons, ihc, hc]
        by_cases hf : lead.id ∈ failing <;>
          simp [hf, List.filter_cons] <;> omega
      · rw [List.foldl_cons, ihp, hp]
        by_cases hf : lead.id ∈ failing <;>
          simp [hf]

/-- The prospect mutation performed at lines 641-643. -/
def markScheduled (p : Prospect) : Prospect :=
  { p with meeting_scheduled := true, next_action := "attend_meeting" }

/-- A prospect id whose stored entry has been flipped by the scheduler. -/
def scheduledOk (pipeline : List (String × Prospect)) (pid : String) : Prop :=
  ∃ p, dictGet pipeline pid = some p ∧
    p.meeting_scheduled = true ∧ p.next_action = "attend_meeting"

lemma scheduleOne_pipeline_shape (now : Int)
    (acc : SchedulingResults × List (String × Prospect) × List Meeting)
    (pd : ProspectRequest) :
    (scheduleOne now acc pd).2.1 = acc.2.1 ∨
      ∃ pid, pd.prospect_id = some pid ∧
        (scheduleOne now acc pd).2.1 = dictModify acc.2.1 pid markScheduled := by
  rcases hp : pd.prospect_id with _ | pid
  · left; simp [scheduleOne, find_available_slot, hp]
  · by_cases hc : dictContains acc.2.1 pid = true
    · right
      refine ⟨pid, rfl, ?_⟩
      simp only [scheduleOne, find_available_slot, hp, hc]
      rfl
    · left; simp [scheduleOne, find_available_slot, hp, hc]

lemma scheduledOk_dictModify (d : List (String × Prospect)) (k pid : String) :
    scheduledOk d pid → scheduledOk (dictModify d k markScheduled) pid := by
  rintro ⟨p, hget, hm, hn⟩
  by_cases hk : pid = k
  · subst hk
    exact ⟨markScheduled p, by simp [dictGet_dictModify_self, hget, markScheduled], rfl, rfl⟩
  · exact ⟨p, by rw [dictGet_dictModify_of_ne d pid k markScheduled hk]; exact hget, hm, hn⟩

lemma scheduledOk_after_modify (d : List (String × Prospect)) (pid : String)
    (hc : dictContains d pid = true) :
    scheduledOk (dictModify d pid markScheduled) pid := by
  rcases hget : dictGet d pid with _ | p
  · simp [dictContains, hget] at hc
  · exact ⟨markScheduled p, by simp [dictGet_dictModify_self, hget, markScheduled], rfl, rfl⟩

lemma scheduleOne_preserves_ok (now : Int)
    (acc : SchedulingResults × List (String × Prospect) × List Meeting)
    (pd : ProspectRequest) (pid : String) (h : scheduledOk acc.2.1 pid) :
    scheduledOk (scheduleOne now acc pd).2.1 pid := by
  rcases scheduleOne_pipeline_shape now acc pd with heq | ⟨pid', _, heq⟩
  · rw [heq]; exact h
  · rw [heq]; exact scheduledOk_dictModify acc.2.1 pid' pid h

lemma scheduleOne_preserves_contains (now : Int)
    (acc : SchedulingResults × List (String × Prospect) × List Meeting)
    (pd : ProspectRequest) (pid : String) :
    dictContains (scheduleOne now acc pd).2.1 pid = dictContains acc.2.1 pid := by
  rcases scheduleOne_pipeline_shape now acc pd with heq | ⟨pid', _, heq⟩
  · rw [heq]
  · rw [heq, dictContains_dictModify]

lemma scheduleOne_marks (now : Int)
    (acc : SchedulingResults × List (String × Prospect) × List Meeting)
    (pd : ProspectRequest) (pid : String) (hp : pd.prospect_id = some pid)
    (hc : dictContains acc.2.1 pid = true) :
    scheduledOk (scheduleOne now acc pd).2.1 pid := by
  have : (scheduleOne now acc pd).2.1 = dictModify acc.2.1 pid markScheduled := by
    simp only [scheduleOne, find_available_slot, hp, hc]
    rfl
  rw [this]
  exact scheduledOk_after_modify acc.2.1 pid hc

lemma sched_fold_preserves_ok (now : Int) (reqs : List ProspectRequest) (pid : String) :
    ∀ acc, scheduledOk acc.2.1 pid →
      scheduledOk (reqs.foldl (scheduleOne now) acc).2.1 pid := by
  induction reqs with
  | nil => intro acc h; simpa using h
  | cons pd rest ih =>
      intro acc h
      exact ih _ (scheduleOne_preserves_ok now acc pd pid h)

lemma sched_fold_marks (now : Int) (reqs : List ProspectRequest)
    (pd : ProspectRequest) (pid : String) :
    ∀ acc, pd ∈ reqs → pd.prospect_id = some pid →
      dictContains acc.2.1 pid = true →
      scheduledOk (reqs.foldl (scheduleOne now) acc).2.1 pid := by
  induction reqs with
  | nil => intro acc h; simp at h
  | cons q rest ih =>
      intro acc hmem hp hc
      rcases List.mem_cons.mp hmem with hq | hmem'
      · subst hq
        exact sched_fold_preserves_ok now rest pid _
          (scheduleOne_marks now acc pd pid hp hc)
      · refine ih _ hmem' hp ?_
        rw [scheduleOne_preserves_contains now acc q pid]
        exact hc

lemma sched_fold_results (now : Int) (reqs : List ProspectRequest) :
    ∀ acc : SchedulingResults × List (String × Prospect) × List Meeting,
      (reqs.foldl (scheduleOne now) acc).1.meetings_confirmed =
        acc.1.meetings_confirmed + reqs.length ∧
      (reqs.foldl (scheduleOne now) acc).1.meetings_requested =
        acc.1.meetings_requested + reqs.length ∧
      (reqs.foldl (scheduleOne now) acc).1.scheduled_meetings.length =
        acc.1.scheduled_meetings.length + reqs.length ∧
      ((∀ m ∈ acc.1.scheduled_meetings, m.scheduled_time = now + 3 * 86400) →
        ∀ m ∈ (reqs.foldl (scheduleOne now) acc).1.scheduled_meetings,
          m.scheduled_time = now + 3 * 86400) := by
  induction reqs with
  | nil => intro acc; simp
  | cons pd rest ih =>
      intro acc
      obtain ⟨ihc, ihr, ihl, iht⟩ := ih (scheduleOne now acc pd)
      have hstep :
          (scheduleOne now acc pd).1.meetings_confirmed =
            acc.1.meetings_confirmed + 1 ∧
          (scheduleOne now acc pd).1.meetings_requested =
            acc.1.meetings_requested + 1 ∧
          (scheduleOne now acc pd).1.scheduled_meetings =
            acc.1.scheduled_meetings ++
              [{ id := "meeting_" ++ toString now
                 prospect_id := pd.prospect_id
                 meeting_type := pd.meeting_type
                 scheduled_time := now + 3 * 86400
                 created_at := now }] := by
        refine ⟨?_, ?_, ?_⟩ <;> simp [scheduleOne, find_available_slot]
      refine ⟨?_, ?_, ?_, ?_⟩
      · rw [List.foldl_cons, ihc, hstep.1]
        simp only [List.length_cons]
        omega
      · rw [List.foldl_cons]
        rw [ihr]
        rw [hstep.2.1]
        simp only [List.length_cons]
        omega
      · rw [List.foldl_cons]
        rw [ihl]
        rw [hstep.2.2]
        simp only [List.length_append, List.length_cons, List.length_nil]
        omega
      · intro hacc
        rw [List.foldl_cons]
        refine iht ?_
        rw [hstep.2.2]
        intro m hm
        rcases List.mem_append.mp hm with hm' | hm'
        · exact hacc m hm'
        · simp at hm'
          rw [hm']
          norm_num

lemma leadGen_completion_metrics (m : DepartmentMetrics) (leadsFound : Nat)
    (d : ℚ) (now : Int) :
    (applyCompletion m (Completion.lead_generation leadsFound d now)).total_workflows_executed =
      m.total_workflows_executed + 1 ∧
    (applyCompletion m (Completion.lead_generation leadsFound d now)).average_execution_time *
        ((m.total_workflows_executed : ℚ) + 1) =
      m.average_execution_time * (m.total_workflows_executed : ℚ) + d := by
  constructor
  · simp [applyCompletion]
  · have hpos : ((m.total_workflows_executed : ℚ) + 1) ≠ 0 := by positivity
    simp only [applyCompletion, Nat.succ_pos, if_pos]
    push_cast
    field_simp

lemma leadGen_fold_metrics (ps : List (Nat × ℚ × Int)) :
    ∀ m : DepartmentMetrics,
      ((ps.map (fun p => Completion.lead_generation p.1 p.2.1 p.2.2)).foldl
          applyCompletion m).total_workflows_executed =
        m.total_workflows_executed + ps.length ∧
      ((ps.map (fun p => Completion.lead_generation p.1 p.2.1 p.2.2)).foldl
            applyCompletion m).average_execution_time *
          ((m.total_workflows_executed : ℚ) + ps.length) =
        m.average_execution_time * (m.total_workflows_executed : ℚ) +
          (ps.map (fun p => p.2.1)).sum := by
  induction ps with
  | nil => intro m; simp
  | cons p rest ih =>
      intro m
      obtain ⟨h1, h2⟩ := leadGen_completion_metrics m p.1 p.2.1 p.2.2
      obtain ⟨ih1, ih2⟩ := ih (applyCompletion m (Completion.lead_generation p.1 p.2.1 p.2.2))
      constructor
      · simp only [List.map_cons, List.foldl_cons, ih1, h1, List.length_cons]
        omega
      · simp only [List.map_cons, List.foldl_cons, List.length_cons, List.sum_cons]
        have hcast : ((m.total_workflows_executed : ℚ) + (rest.length + 1 : ℕ)) =
            (((applyCompletion m (Completion.lead_generation p.1 p.2.1 p.2.2)).total_workflows_executed : ℚ)
              + rest.length) := by
          rw [h1]; push_cast; ring
        rw [hcast, ih2, h1]
        push_cast
        rw [h2]
        ring

/-- Claim C7: for all attribute inputs the lead score function is pure and
deterministic (it is a function of its argument record alone), always returns
a value in [0, 10], and agrees with the reference computation written out in
the claim (base 5.0, +2.0 title keyword bonus applied at most once, 5/8/10
size bonus for the first matching size token, +3.0 industry bonus applied at
most once, clamped at 10.0). -/
theorem claim_C7_lead_score_bounded_deterministic (lead_data : LeadData) :
    0 ≤ calculate_lead_score lead_data ∧
    calculate_lead_score lead_data ≤ 10 ∧
    calculate_lead_score lead_data = leadScoreSpec lead_data := by
  unfold calculate_lead_score leadScoreSpec
  simp only [company_size_bonus, List.find?]
  by_cases ht : title_keywords.any
      (fun keyword => strContains lead_data.title.toLower keyword) = true <;>
  by_cases hs1 : strContains lead_data.company_size.toLower "startup" = true <;>
  by_cases hs2 : strContains lead_data.company_size.toLower "enterprise" = true <;>
  by_cases hs3 : strContains lead_data.company_size.toLower "mid-market" = true <;>
  by_cases hi : industry_match.any
      (fun mi => strContains lead_data.industry.toLower mi) = true <;>
  simp [ht, hs1, hs2, hs3, hi] <;>
  norm_num [min_def]

/-- Claim C9: when the entity store contains zero leads, the pipeline status
report returns both conversion ratios as exactly 0 (the guarded branch of
lines 683-689), with no division performed. -/
theorem claim_C9_empty_store_zero_rates (now : Int) (st : SalesState)
    (h : st.leads_database = []) :
    (report_pipeline_status now st).lead_to_prospect_conversion = 0 ∧
    (report_pipeline_status now st).lead_to_meeting_conversion = 0 := by
  unfold report_pipeline_status
  simp [h]

/-- Witness for C9 at the empty state. -/
theorem claim_C9_witness :
    (report_pipeline_status 0 {}).lead_to_prospect_conversion = 0 ∧
    (report_pipeline_status 0 {}).lead_to_meeting_conversion = 0 :=
  claim_C9_empty_store_zero_rates 0 {} rfl

/-- Claim C6: in every full-pipeline run, whatever each stage does — in
particular when the nurture stage executor fails wholesale — all four stage
results are recorded in the envelope and `stages_completed` lists all four
stages; with the nurture stage forced to fail, the scheduling and the
reporting stages still execute and report success. -/
theorem claim_C6_full_pipeline_continuation :
    (∀ (leadGen : SalesState → LeadGenEnvelope × SalesState)
       (stageError : String → Option String) (itemFailures : List String)
       (now : Int) (st : SalesState),
      (execute_full_pipeline_workflow leadGen stageError itemFailures now st).1.stages_completed =
        ["lead_generation", "lead_nurturing", "meeting_scheduling",
         "pipeline_reporting"] ∧
      (execute_full_pipeline_workflow leadGen stageError itemFailures now st).1.lead_generation.isSome = true ∧
      (execute_full_pipeline_workflow leadGen stageError itemFailures now st).1.lead_nurturing.isSome = true ∧
      (execute_full_pipeline_workflow leadGen stageError itemFailures now st).1.meeting_scheduling.isSome = true ∧
      (execute_full_pipeline_workflow leadGen stageError itemFailures now st).1.pipeline_report.isSome = true) ∧
    (∀ (leadGen : SalesState → LeadGenEnvelope × SalesState)
       (itemFailures : List String) (now : Int) (st : SalesState) (e : String),
      (execute_full_pipeline_workflow leadGen
          (fun s => if s = "lead_nurturing" then some e else none)
          itemFailures now st).1.lead_nurturing =
        some { success := false, error := some e } ∧
      ((execute_full_pipeline_workflow leadGen
          (fun s => if s = "lead_nurturing" then some e else none)
          itemFailures now st).1.meeting_scheduling.map SchedEnvelope.success) =
        some true ∧
      ((execute_full_pipeline_workflow leadGen
          (fun s => if s = "lead_nurturing" then some e else none)
          itemFailures now st).1.pipeline_report.map ReportEnvelope.success) =
        some true) := by
  constructor
  · intro leadGen stageError itemFailures now st
    unfold execute_full_pipeline_workflow
    rcases stageError "lead_nurturing" with _ | e1 <;>
      rcases stageError "meeting_scheduling" with _ | e2 <;>
        rcases stageError "pipeline_reporting" with _ | e3 <;>
          simp [execute_lead_nurturing_workflow,
            execute_meeting_scheduling_workflow,
            execute_pipeline_reporting_workflow]
  · intro leadGen itemFailures now st e
    unfold execute_full_pipeline_workflow
    simp [execute_lead_nurturing_workflow,
      execute_meeting_scheduling_workflow,
      execute_pipeline_reporting_workflow]

/-- Claim C1 (amended): the mean law holds for lead-generation executions
only — after n completed lead_generation workflows with durations d1..dn
(starting from fresh metrics, with no other workflow types interleaved),
`average_execution_time` equals (d1+...+dn)/n.  The original claim over all
workflow types fails: see the counterexample. -/
theorem claim_C1_lead_generation_average_is_mean
    (ps : List (Nat × ℚ × Int)) (h : ps ≠ []) :
    ((ps.map (fun p => Completion.lead_generation p.1 p.2.1 p.2.2)).foldl
        applyCompletion {}).average_execution_time =
      (ps.map (fun p => p.2.1)).sum / (ps.length : ℚ) := by
  obtain ⟨h1, h2⟩ := leadGen_fold_metrics ps {}
  have hlen : ((ps.length : ℚ)) ≠ 0 := by
    have : 0 < ps.length := List.length_pos.mpr h
    positivity
  rw [eq_div_iff hlen]
  simpa using h2

/-- Witness for C1: two lead-generation completions with durations 5 and 7
leave the average at 6. -/
theorem claim_C1_witness :
    (([((1 : Nat), (5 : ℚ), (0 : Int)), ((0 : Nat), (7 : ℚ), (1 : Int))].map
        (fun p => Completion.lead_generation p.1 p.2.1 p.2.2)).foldl
        applyCompletion {}).average_execution_time = 6 := by
  have h := claim_C1_lead_generation_average_is_mean
    [((1 : Nat), (5 : ℚ), (0 : Int)), ((0 : Nat), (7 : ℚ), (1 : Int))] (by simp)
  rw [h]
  norm_num

/-- Counterexample to C1 as stated: a single completed quick_wins workflow
with execution duration 5 is the first completion observed (the total
workflow count becomes 1), yet `average_execution_time` stays 0, not the
mean 5/1 — lines 884-899 never fold the measured duration into the mean. -/
theorem claim_C1_counterexample :
    (applyCompletion {} (Completion.quick_wins 1 1 5 0)).total_workflows_executed = 1 ∧
    (applyCompletion {} (Completion.quick_wins 1 1 5 0)).average_execution_time = 0 ∧
    (0 : ℚ) ≠ 5 / 1 := by
  refine ⟨rfl, rfl, by norm_num⟩

/-- Claim C2 (amended): the `update_metrics` method, when invoked, performs
exactly the claimed update — it increments `total_workflows_executed` by 1,
stamps `last_execution`, and recomputes `success_rate` as the 0/1 success
indicator of the just-completed result divided by the new total.  But the
lead-nurturing workflow executor (like the scheduling and reporting ones)
never invokes it and leaves the metrics record completely unchanged. -/
theorem claim_C2_update_metrics_contract :
    (∀ (wt : String) (r : ResultEnvelope) (now : Int) (m : DepartmentMetrics),
      (update_metrics wt r now m).total_workflows_executed =
          m.total_workflows_executed + 1 ∧
      (update_metrics wt r now m).last_execution = some now ∧
      (update_metrics wt r now m).success_rate =
        (if r.success then (1 : ℚ) else 0) /
          (((update_metrics wt r now m).total_workflows_executed : ℚ))) ∧
    (∀ (failing : List String) (ids : Option (List String)) (now : Int)
       (st : SalesState),
      ((execute_lead_nurturing_workflow failing ids now st).2).metrics =
        st.metrics) := by
  constructor
  · intro wt r now m
    unfold update_metrics
    by_cases h1 : wt = "lead_generation" <;>
      by_cases h2 : wt = "quick_wins" <;>
        by_cases h3 : wt = "full_outreach" <;>
          simp [h1, h2, h3]
  · intro failing ids now st
    rfl

/-- Counterexample to C2 as stated: completing a lead_nurturing workflow
invocation (on a state holding one lead) leaves
`total_workflows_executed` at 0 instead of incrementing it to 1. -/
theorem claim_C2_counterexample :
    ((execute_lead_nurturing_workflow [] none 0 exampleNurtureState).2).metrics.total_workflows_executed = 0 ∧
    (0 : Nat) ≠ 0 + 1 :=
  ⟨rfl, by decide⟩

/-- Claim C3: for a lead processed by the nurture stage, if after the contact
step its score exceeds 7 and its contact attempts are at least 2, then
exactly one Prospect entry for that lead id exists afterwards and the
processed lead's status is "qualified"; if the conditions do not hold after
the contact step, the prospect store is left untouched (no Prospect is ever
created for such a lead). -/
theorem claim_C3_qualification_threshold (now : Int) (lead : Lead)
    (prospects : List (String × Prospect))
    (hstore : countKey prospects lead.id ≤ 1) :
    ((7 < ((contactStep now lead).1).score ∧
        2 ≤ ((contactStep now lead).1).contact_attempts) →
      countKey (nurture_prospects [] now [lead] prospects).2.1 lead.id = 1 ∧
      (nurture_prospects [] now [lead] prospects).2.2 =
        [{ (contactStep now lead).1 with status := "qualified" }]) ∧
    (¬(7 < ((contactStep now lead).1).score ∧
        2 ≤ ((contactStep now lead).1).contact_attempts) →
      (nurture_prospects [] now [lead] prospects).2.1 = prospects ∧
      (nurture_prospects [] now [lead] prospects).2.2 =
        [(contactStep now lead).1]) := by
  have hid := contactStep_id now lead
  constructor
  · intro hc
    have h7 : (7 : ℚ) ≤ ((contactStep now lead).1).score := le_of_lt hc.1
    rcases hq : qualify_lead (contactStep now lead).1 with _ | q
    · rw [qualify_lead, if_pos h7] at hq
      cases hq
    · constructor
      · have hshape : (nurture_prospects [] now [lead] prospects).2.1 =
            dictInsert prospects ((contactStep now lead).1).id
              { q with lead := { (contactStep now lead).1 with status := "qualified" } } := by
          simp [nurture_prospects, nurtureOne, hc.1, hc.2, hq]
        rw [hshape, hid]
        exact countKey_dictInsert_self prospects lead.id _ hstore
      · simp [nurture_prospects, nurtureOne, hc.1, hc.2, hq]
  · intro hc
    constructor <;> simp [nurture_prospects, nurtureOne, hc]

/-- Witness for C3: a score-8 contacted lead with 2 prior attempts, nurtured
against an empty prospect store, yields exactly one Prospect entry and a
qualified lead. -/
theorem claim_C3_witness :
    countKey (nurture_prospects [] 0 [exampleQualLead] []).2.1 exampleQualLead.id = 1 ∧
    (nurture_prospects [] 0 [exampleQualLead] []).2.2 =
      [{ (contactStep 0 exampleQualLead).1 with status := "qualified" }] :=
  (claim_C3_qualification_threshold 0 exampleQualLead [] (by decide)).1 (by decide)

/-- Claim C4: a Python dict assignment overwrites the entry stored under an
existing key, and the nurture stage preserves the at-most-one-entry-per-id
invariant of the prospect store under any batch (hence under any sequence of
nurture calls, including repeated calls naming the same lead id). -/
theorem claim_C4_at_most_one_prospect :
    (∀ (d : List (String × Prospect)) (k : String) (v : Prospect),
      dictGet (dictInsert d k v) k = some v) ∧
    (∀ (failing : List String) (now : Int) (leads : List Lead)
       (prospects : List (String × Prospect)) (k : String),
      countKey prospects k ≤ 1 →
      countKey (nurture_prospects failing now leads prospects).2.1 k ≤ 1) := by
  constructor
  · exact fun d k v => dictGet_dictInsert_self d k v
  · intro failing now leads prospects k h
    exact countKey_nurture_fold failing now leads k _ h

/-- Witness for C4: nurturing the same qualifying lead twice in one batch
leaves at most one prospect entry under its id. -/
theorem claim_C4_witness :
    countKey (nurture_prospects [] 0 [exampleQualLead, exampleQualLead] []).2.1
      "lead_q" ≤ 1 :=
  claim_C4_at_most_one_prospect.2 [] 0 [exampleQualLead, exampleQualLead] []
    "lead_q" (by decide)

/-- Claim C5: a per-item failure inside a nurture batch is caught, recorded
as exactly one error entry naming the failed lead's id, and does not abort
the rest of the batch — in general the error list is exactly one entry per
failing lead and every non-failing lead is processed normally; in the
concrete five-lead batch where only `lead_3` fails there is exactly one error
entry and the four remaining leads are contacted and emailed. -/
theorem claim_C5_partial_failure_isolation :
    (∀ (failing : List String) (now : Int) (leads : List Lead)
       (prospects : List (String × Prospect)),
      (nurture_prospects failing now leads prospects).1.errors =
        (leads.filter (fun l => decide (l.id ∈ failing))).map
          (fun l => "Error nurturing lead " ++ l.id ++ ": injected failure") ∧
      (nurture_prospects failing now leads prospects).1.leads_contacted =
        (leads.filter (fun l => !decide (l.id ∈ failing))).length ∧
      (nurture_prospects failing now leads prospects).2.2 =
        leads.map (fun l => if l.id ∈ failing then l else nurtureLeadResult now l)) ∧
    ((nurture_prospects ["lead_3"] 0 exampleBatch []).1.errors =
        ["Error nurturing lead lead_3: injected failure"] ∧
      (nurture_prospects ["lead_3"] 0 exampleBatch []).1.leads_contacted = 4 ∧
      (nurture_prospects ["lead_3"] 0 exampleBatch []).1.emails_sent = 4 ∧
      (nurture_prospects ["lead_3"] 0 exampleBatch []).1.prospects_qualified = 0) := by
  constructor
  · intro failing now leads prospects
    obtain ⟨he, hc, hp⟩ := nurture_fold_spec failing now leads ({}, prospects, [])
    exact ⟨by simpa using he, by simpa using hc, by simpa using hp⟩
  · refine ⟨?_, ?_, ?_, ?_⟩ <;> rfl

/-- Claim C8: every scheduling-batch entry yields exactly one confirmed
meeting whose timestamp is exactly 3 days after the call time, and every
requested prospect present in the store ends with `meeting_scheduled = true`
and `next_action = "attend_meeting"`. -/
theorem claim_C8_scheduling (now : Int) (reqs : List ProspectRequest)
    (pipeline : List (String × Prospect)) (meetings : List Meeting) :
    (schedule_meetings now reqs pipeline meetings).1.meetings_confirmed = reqs.length ∧
    (schedule_meetings now reqs pipeline meetings).1.scheduled_meetings.length = reqs.length ∧
    (∀ m ∈ (schedule_meetings now reqs pipeline meetings).1.scheduled_meetings,
        m.scheduled_time = now + 3 * 86400) ∧
    (∀ pd ∈ reqs, ∀ pid : String, pd.prospect_id = some pid →
        dictContains pipeline pid = true →
        ∃ p, dictGet (schedule_meetings now reqs pipeline meetings).2.1 pid = some p ∧
          p.meeting_scheduled = true ∧ p.next_action = "attend_meeting") := by
  obtain ⟨hc, hr, hl, ht⟩ := sched_fold_results now reqs ({}, pipeline, meetings)
  refine ⟨by simpa using hc, by simpa using hl, ?_, ?_⟩
  · refine ht ?_
    intro m hm
    simp at hm
  · intro pd hmem pid hp hcontains
    exact sched_fold_marks now reqs pd pid ({}, pipeline, meetings) hmem hp hcontains

/-- Witness for C8: a batch over the two unscheduled prospects p1 and p2
produces 2 confirmed meetings, each 3 days ahead, and flips both flags. -/
theorem claim_C8_witness :
    (schedule_meetings 0 exampleRequests examplePipeline []).1.meetings_confirmed = 2 ∧
    (∀ m ∈ (schedule_meetings 0 exampleRequests examplePipeline []).1.scheduled_meetings,
        m.scheduled_time = 0 + 3 * 86400) ∧
    (∃ p, dictGet (schedule_meetings 0 exampleRequests examplePipeline []).2.1 "p1" = some p ∧
        p.meeting_scheduled = true ∧ p.next_action = "attend_meeting") ∧
    (∃ p, dictGet (schedule_meetings 0 exampleRequests examplePipeline []).2.1 "p2" = some p ∧
        p.meeting_scheduled = true ∧ p.next_action = "attend_meeting") := by
  obtain ⟨h1, h2, h3, h4⟩ := claim_C8_scheduling 0 exampleRequests examplePipeline []
  exact ⟨h1, h3,
    h4 { prospect_id := some "p1" } (by decide) "p1" rfl (by decide),
    h4 { prospect_id := some "p2" } (by decide) "p2" rfl (by decide)⟩

/-- Claim C10: re-nurturing a lead that still satisfies the qualification
conditions while its Prospect already exists with a scheduled meeting
replaces that entry with a freshly constructed Prospect whose
`meeting_scheduled` is false and whose `next_action` is "schedule_meeting",
losing the previously recorded scheduled state. -/
theorem claim_C10_requalification_overwrites (now : Int) (lead : Lead)
    (prospects : List (String × Prospect)) (p : Prospect)
    (hscore : 7 < lead.score) (hatt : 2 ≤ lead.contact_attempts)
    (hp : dictGet prospects lead.id = some p)
    (hsched : p.meeting_scheduled = true) :
    ∃ p', dictGet (nurture_prospects [] now [lead] prospects).2.1 lead.id = some p' ∧
      p'.meeting_scheduled = false ∧ p'.next_action = "schedule_meeting" := by
  have hid := contactStep_id now lead
  have hscore' : 7 < ((contactStep now lead).1).score := by
    rw [contactStep_score]; exact hscore
  have hatt' : 2 ≤ ((contactStep now lead).1).contact_attempts :=
    le_trans hatt (contactStep_attempts now lead)
  have h7 : (7 : ℚ) ≤ ((contactStep now lead).1).score := le_of_lt hscore'
  rcases hq : qualify_lead (contactStep now lead).1 with _ | q
  · rw [qualify_lead, if_pos h7] at hq
    cases hq
  · have hfields : q.meeting_scheduled = false ∧ q.next_action = "schedule_meeting" := by
      rw [qualify_lead, if_pos h7] at hq
      cases hq
      exact ⟨rfl, rfl⟩
    refine ⟨{ q with lead := { (contactStep now lead).1 with status := "qualified" } },
      ?_, hfields.1, hfields.2⟩
    have hshape : (nurture_prospects [] now [lead] prospects).2.1 =
        dictInsert prospects ((contactStep now lead).1).id
          { q with lead := { (contactStep now lead).1 with status := "qualified" } } := by
      simp [nurture_prospects, nurtureOne, hscore', hatt', hq]
    rw [hshape, hid]
    exact dictGet_dictInsert_self prospects lead.id _

/-- Witness for C10: nurturing `exampleQualLead` while its prospect entry is
`exampleScheduledProspect` (meeting already scheduled) leaves an entry with
`meeting_scheduled = false` and `next_action = "schedule_meeting"`. -/
theorem claim_C10_witness :
    ∃ p', dictGet (nurture_prospects [] 0 [exampleQualLead]
        [("lead_q", exampleScheduledProspect)]).2.1 exampleQualLead.id = some p' ∧
      p'.meeting_scheduled = false ∧ p'.next_action = "schedule_meeting" :=
  claim_C10_requalification_overwrites 0 exampleQualLead
    [("lead_q", exampleScheduledProspect)] exampleScheduledProspect
    (by decide) (by decide) (by decide) rfl
